import Mathlib

set_option linter.unusedVariables false

/-!
Shallow embedding of `apps/ara/svc_power/svc_power.c`, the svc power
command layer, together with the parts of the power/hotplug core it
drives.  Functions whose bodies appear in `svc_power.c` are translated
directly from that source.  Functions the command layer calls whose
implementation lives outside this source tree (`interface.c`, the vreg
driver) are modelled from the specification; each such definition says so
in its doc comment.  Calls into hardware-touching primitives are recorded
as explicit call-trace items so that theorems can speak about which
primitive was invoked, how often, and with which arguments.
-/

/-- Value of the POSIX errno constant EINVAL, used by `do_to_iface` when the
interface name matches nothing. -/
def EINVAL : Int := 22

/-- The enum wd_debounce_state of the wake/detect debounce engine
(declared in interface.h; values WD_ST_INVALID, WD_ST_INACTIVE_DEBOUNCE,
WD_ST_ACTIVE_DEBOUNCE, WD_ST_INACTIVE_STABLE, WD_ST_ACTIVE_STABLE). -/
inductive WdDebounceState where
  | invalid
  | inactiveDebounce
  | activeDebounce
  | inactiveStable
  | activeStable
  deriving DecidableEq

/-- The enum hotplug_state (HOTPLUG_ST_UNKNOWN, HOTPLUG_ST_PLUGGED,
HOTPLUG_ST_UNPLUGGED). -/
inductive HotplugState where
  | unknown
  | plugged
  | unplugged
  deriving DecidableEq

/-- Interface types distinguished by `dumpstate_func` via `iface->if_type`.
ARA_IFACE_TYPE_MODULE_PORT2 is tested explicitly at svc_power.c:325; the
remaining values are modelled from the spec (interface.h is not in the
source tree): a module-port type other than PORT2, whose wake and detect
share one line, and a non-module (builtin) type. -/
inductive AraIfaceType where
  | builtin
  | modulePort
  | modulePort2
  deriving DecidableEq

/-- The enum of interface orders (ARA_IFACE_ORDER_UNKNOWN,
ARA_IFACE_ORDER_PRIMARY, ARA_IFACE_ORDER_SECONDARY). -/
inductive AraIfaceOrder where
  | unknown
  | primary
  | secondary
  deriving DecidableEq

/-- One rail of a vreg group (struct vreg_data: gpio, hold_time,
active_high, def_val), immutable configuration. -/
structure VregRail where
  gpio : Nat
  hold_time : Nat
  active_high : Bool
  def_val : Nat
  deriving DecidableEq

/-- A vreg group as read by `dumpstate_vreg` (struct vreg: name, the rail
array `vregs` with its length `nr_vregs`, power_enabled, use_count).  The
rail array is a list; `nr_vregs` is its length, and a NULL rail array is
the empty list. -/
structure Vreg where
  name : String
  vregs : List VregRail
  power_enabled : Bool
  use_count : Nat
  deriving DecidableEq

/-- The wake/detect input wiring and debounce state of a module port
(struct wd_data: gpio, polarity, db_state, last_state). -/
structure DetectIn where
  gpio : Nat
  polarity : Bool
  db_state : WdDebounceState
  last_state : WdDebounceState
  deriving DecidableEq

/-- One entry of the fixed interface table (struct interface).  A
switch_portid of INVALID_PORT is modelled as `none`.  The hotplug_state
field is the derived presence state read by
`interface_get_hotplug_state_atomic`. -/
structure Interface where
  name : String
  switch_portid : Option Nat
  vsys_vreg : Vreg
  refclk_vreg : Vreg
  if_type : AraIfaceType
  wake_gpio : Nat
  detect_in : DetectIn
  if_order : AraIfaceOrder
  hotplug_state : HotplugState
  deriving DecidableEq

/-- Modelled from the spec: `interface_is_module_port` (interface.c is not
in the source tree).  An interface is a module port when its type is one
of the two module-port types; `dumpstate_func` distinguishes the two
inside its module-port branch, so both exist. -/
def interface_is_module_port (iface : Interface) : Bool :=
  match iface.if_type with
  | AraIfaceType.builtin => false
  | AraIfaceType.modulePort => true
  | AraIfaceType.modulePort2 => true

/-- Modelled from the spec: `interface_get_hotplug_state_atomic`
(interface.c, not in the source tree) returns the interface's current
derived hotplug state. -/
def interface_get_hotplug_state_atomic (iface : Interface) : HotplugState :=
  iface.hotplug_state

/-- Modelled from the spec: the Hotplug Classifier (spec 4.3, interface.c
not in the source tree).  Pure function of DebounceState:
INACTIVE_STABLE maps to UNPLUGGED, ACTIVE_STABLE maps to PLUGGED, the
invalid and debounce states map to UNKNOWN. -/
def hotplug_state_of_debounce : WdDebounceState → HotplugState
  | WdDebounceState.invalid => HotplugState.unknown
  | WdDebounceState.inactiveDebounce => HotplugState.unknown
  | WdDebounceState.activeDebounce => HotplugState.unknown
  | WdDebounceState.inactiveStable => HotplugState.unplugged
  | WdDebounceState.activeStable => HotplugState.plugged

/-- Modelled from the spec: `interface_get_by_name` (interface.c, not in
the source tree); spec 4.5 lookup_by_name is an exact, case-sensitive
match against the configured interface names, returning the first match
in registration order. -/
def interface_get_by_name (registry : List Interface) (name : String) :
    Option Interface :=
  registry.find? (fun iface => iface.name == name)

/-- Helper for `interface_get_id_by_portid`: scan the registry carrying
the next logical id. -/
def id_by_portid_from (portid : Nat) : List Interface → Nat → Option Nat
  | [], _ => none
  | iface :: rest, k =>
      if iface.switch_portid = some portid then some k
      else id_by_portid_from portid rest (k + 1)

/-- Modelled from the spec: `interface_get_id_by_portid` (interface.c, not
in the source tree); spec 4.5 lookup_id_by_port maps a switch port number
to the interface's logical id (successive positions in the registry,
starting at 1), failing when no interface has that port. -/
def interface_get_id_by_portid (registry : List Interface) (portid : Nat) :
    Option Nat :=
  id_by_portid_from portid registry 1

/-
Reference-counted vreg group power state (spec 3 VregGroup, spec 4.1; the
vreg driver is not in the source tree, so the operations are modelled
from the spec).
-/

/-- Mutable part of a VregGroup: its last commanded state and the
reference count.  The count is a natural number because the spec states
it never goes negative. -/
structure VregState where
  power_enabled : Bool
  use_count : Nat
  deriving DecidableEq

/-- Reset-time state of a VregGroup: unpowered, zero references. -/
def vregInitial : VregState :=
  { power_enabled := false, use_count := 0 }

/-- Modelled from the spec: `enable(group)` (spec 4.1, vreg driver not in
the source tree) increments use_count; on the 0 to 1 transition it drives
the rails and sets power_enabled true, otherwise power_enabled is left as
it was. -/
def vreg_enable (s : VregState) : VregState :=
  { use_count := s.use_count + 1
    power_enabled := if s.use_count = 0 then true else s.power_enabled }

/-- Modelled from the spec: `disable(group)` (spec 4.1, vreg driver not in
the source tree) decrements use_count if it is positive; on the 1 to 0
transition it drives the rails off and sets power_enabled false; calling
it at use_count 0 is a no-op that merely reports a logic error. -/
def vreg_disable (s : VregState) : VregState :=
  if s.use_count = 0 then s
  else
    { use_count := s.use_count - 1
      power_enabled := if s.use_count = 1 then false else s.power_enabled }

/-- The two reference-counting operations on a vreg group. -/
inductive VregOp where
  | enable
  | disable
  deriving DecidableEq

/-- Apply one vreg operation to a vreg group state. -/
def vreg_step (s : VregState) : VregOp → VregState
  | VregOp.enable => vreg_enable s
  | VregOp.disable => vreg_disable s

/-- Run a sequence of vreg operations (spec 4.1: per-group operations are
serialized, so an interleaving of concurrent callers is a sequence). -/
def vreg_run (s : VregState) : List VregOp → VregState
  | [] => s
  | op :: rest => vreg_run (vreg_step s op) rest

/-- Number of enable operations in a sequence. -/
def countE : List VregOp → Nat
  | [] => 0
  | VregOp.enable :: rest => countE rest + 1
  | VregOp.disable :: rest => countE rest

/-- Number of disable operations in a sequence. -/
def countD : List VregOp → Nat
  | [] => 0
  | VregOp.enable :: rest => countD rest
  | VregOp.disable :: rest => countD rest + 1

/-- Decides whether a sequence of vreg operations, started with `c`
outstanding enables, never issues a disable with zero outstanding
enables (every prefix has at least as many enables as disables). -/
def balanced : Nat → List VregOp → Bool
  | _, [] => true
  | c, VregOp.enable :: rest => balanced (c + 1) rest
  | c, VregOp.disable :: rest => decide (0 < c) && balanced (c - 1) rest

/-
strtol, base 10, as used by cmd_set_power, cmd_wakeout and
cmd_wakeout_length: skip leading whitespace, read an optional sign and
the longest run of decimal digits (zero digits parse as 0), saturating at
the 32-bit long range of the target.
-/

/-- Characters accepted by isspace in the C locale. -/
def isSpaceChar (c : Char) : Bool :=
  c = ' ' || c = '\t' || c = '\n' || c = '\x0d' || c = '\x0b' || c = '\x0c'

/-- Accumulate the leading run of decimal digits into a value. -/
def digitsVal : List Char → Int → Int
  | [], acc => acc
  | c :: cs, acc =>
      if '0' ≤ c ∧ c ≤ '9' then
        digitsVal cs (acc * 10 + ((c.toNat : Int) - 48))
      else acc

/-- LONG_MAX on the 32-bit target. -/
def LONG_MAX : Int := 2147483647

/-- LONG_MIN on the 32-bit target. -/
def LONG_MIN : Int := -2147483648

/-- Saturate a value into the long range, as strtol does on overflow. -/
def clampLong (v : Int) : Int :=
  if v > LONG_MAX then LONG_MAX
  else if v < LONG_MIN then LONG_MIN
  else v

/-- Behaviour of strtol(s, NULL, 10) on the target: leading whitespace is
skipped, an optional sign is read, the longest run of digits gives the
value (an empty run gives 0), saturated to the long range. -/
def strtol10 (s : String) : Int :=
  let cs := s.data.dropWhile isSpaceChar
  match cs with
  | '-' :: rest => clampLong (-(digitsVal rest 0))
  | '+' :: rest => clampLong (digitsVal rest 0)
  | _ => clampLong (digitsVal cs 0)

/-
do_to_iface (svc_power.c:128-156) and its callers.  Per-interface
functions are embedded as pure functions returning the C return value
together with the trace of primitive calls (or, where the claims need it,
of visited interfaces) they perform; `iface_func`'s context argument is
already applied.
-/

/-- Loop body of the "all interfaces" branch of `do_to_iface`
(svc_power.c:148-153): call `f` on each interface in registration order,
stopping at (and returning) the first nonzero result; traces are
concatenated.  The source leaves rc uninitialized when the table is
empty; the claims only concern non-empty registries, and the empty case
here returns 0. -/
def runAll {α : Type} (f : Interface → Int × List α) :
    List Interface → Int × List α
  | [] => (0, [])
  | iface :: rest =>
      let r := f iface
      if r.1 ≠ 0 then r
      else
        let q := runAll f rest
        (q.1, r.2 ++ q.2)

/-- Translation of `do_to_iface` (svc_power.c:128-156): the names "all"
and "ALL" (strcmp, exact match) select iteration over every configured
interface; any other name is looked up exactly, a failed lookup prints an
error and returns -EINVAL without calling `iface_func`; a found interface
gets exactly one call whose result is returned. -/
def do_to_iface {α : Type} (registry : List Interface) (iface_name : String)
    (iface_func : Interface → Int × List α) : Int × List α :=
  if iface_name = "all" ∨ iface_name = "ALL" then
    runAll iface_func registry
  else
    match interface_get_by_name registry iface_name with
    | none => (-EINVAL, [])
    | some iface => iface_func iface

/-- Concatenation of the traces of `f` over a whole registry, used to
state that an "all" iteration visited everything. -/
def allTraces {α : Type} (f : Interface → Int × List α) :
    List Interface → List α
  | [] => []
  | iface :: rest => (f iface).2 ++ allTraces f rest

/-
Interface power control (svc_power.c:184-201).  The power primitives
interface_power_on_atomic / interface_power_off_atomic live in
interface.c (not in the source tree); their return values are an oracle
and each invocation is recorded as a trace item.
-/

/-- Return values of the two power primitives, supplied by the
environment. -/
structure PowerOracle where
  on_result : Interface → Int
  off_result : Interface → Int

/-- One recorded call to a power primitive. -/
inductive PrimCall where
  | powerOn (iface : Interface)
  | powerOff (iface : Interface)
  deriving DecidableEq

/-- Translation of `set_power_func` (svc_power.c:184-189): a nonzero
context calls interface_power_on_atomic, a zero context calls
interface_power_off_atomic, and the primitive's result is returned. -/
def set_power_func (o : PowerOracle) (enable : Int) (iface : Interface) :
    Int × List PrimCall :=
  if enable ≠ 0 then (o.on_result iface, [PrimCall.powerOn iface])
  else (o.off_result iface, [PrimCall.powerOff iface])

/-- Translation of `cmd_set_power` (svc_power.c:191-201) on its non-exit
path: with exactly four arguments, argv[3] is parsed with strtol base 10
and `do_to_iface` dispatches `set_power_func` on argv[2]; any other
argument count prints usage and exits (modelled as `none`). -/
def cmd_set_power (o : PowerOracle) (registry : List Interface)
    (argv : List String) : Option (Int × List PrimCall) :=
  match argv with
  | [_, _, ifname, onoff] =>
      some (do_to_iface registry ifname (set_power_func o (strtol10 onoff)))
  | _ => none

/-
Wakeout (svc_power.c:217-265).  interface_generate_wakeout_atomic lives
in interface.c (not in the source tree); its result is an oracle and each
invocation is recorded with its arguments.
-/

/-- Return values of interface_generate_wakeout_atomic, supplied by the
environment, as a function of interface, assert flag and length. -/
def WakeoutOracle : Type := Interface → Bool → Int → Int

/-- One recorded call to interface_generate_wakeout_atomic. -/
inductive WakeoutCall where
  | pulse (iface : Interface) (assert : Bool) (length : Int)
  deriving DecidableEq

/-- Translation of `wakeout_func` (svc_power.c:217-222): calls
interface_generate_wakeout_atomic(iface, false, length) and returns its
result. -/
def wakeout_func (wres : WakeoutOracle) (length : Int) (iface : Interface) :
    Int × List WakeoutCall :=
  (wres iface false length, [WakeoutCall.pulse iface false length])

/-- State owned by the command layer: the process-wide default wakeout
pulse length (the static `wakeout_length_default`). -/
structure CliState where
  wakeout_length_default : Int
  deriving DecidableEq

/-- Initial value of the command-layer state: `static int
wakeout_length_default = -1` (svc_power.c:79); -1 is the sentinel
selecting the board-hardcoded default. -/
def initialCliState : CliState :=
  { wakeout_length_default := -1 }

/-- Translation of `cmd_wakeout` (svc_power.c:224-237) on its non-exit
paths: with three arguments the pulse length is the stored default, with
four it is strtol of argv[3]; other argument counts print usage and exit
(modelled as `none`).  The stored default is never written here. -/
def cmd_wakeout (wres : WakeoutOracle) (registry : List Interface)
    (st : CliState) (argv : List String) :
    Option (CliState × (Int × List WakeoutCall)) :=
  match argv with
  | [_, _, ifname] =>
      some (st, do_to_iface registry ifname
        (wakeout_func wres st.wakeout_length_default))
  | [_, _, ifname, lenArg] =>
      some (st, do_to_iface registry ifname
        (wakeout_func wres (strtol10 lenArg)))
  | _ => none

/-- Translation of `cmd_wakeout_length` (svc_power.c:251-265) on its
non-exit paths: with two arguments it only prints the stored default,
leaving it unchanged; with three it stores strtol of argv[2]; both return
0.  Other argument counts print usage and exit (modelled as `none`). -/
def cmd_wakeout_length (st : CliState) (argv : List String) :
    Option (CliState × Int) :=
  match argv with
  | [_, _] => some (st, 0)
  | [_, _, lenArg] => some ({ wakeout_length_default := strtol10 lenArg }, 0)
  | _ => none

/-
Dumpstate (svc_power.c:279-373).  Every printf of a state field is
recorded as a report item; the function performs no writes to any
interface, vreg or command-layer state.
-/

/-- One line of the dumpstate report, carrying the state it displays. -/
inductive ReportItem where
  | header (name : String)
  | portidNone
  | portid (p : Nat)
  | ifaceId (id : Option Nat)
  | vregName (name : String)
  | noVregs
  | nrVregs (n : Nat)
  | powerEnabled (b : Bool)
  | useCount (n : Nat)
  | rail (gpio : Nat) (hold_time : Nat) (active_high : Bool) (def_val : Nat)
  | wakeGpio (gpio : Nat)
  | detectHeader
  | wakeDetectHeader
  | detectGpio (gpio : Nat)
  | polarity (b : Bool)
  | dbState (s : WdDebounceState)
  | lastState (s : WdDebounceState)
  | hotplug (h : HotplugState)
  | order (o : AraIfaceOrder)
  deriving DecidableEq

/-- Translation of `dumpstate_vreg` (svc_power.c:279-296): name, a "(no
vregs)" marker for a NULL rail array, nr_vregs, power_enabled, use_count,
then one line per rail. -/
def dumpstate_vreg (v : Vreg) : List ReportItem :=
  [ReportItem.vregName v.name]
  ++ (if v.vregs = [] then [ReportItem.noVregs] else [])
  ++ [ReportItem.nrVregs v.vregs.length,
      ReportItem.powerEnabled v.power_enabled,
      ReportItem.useCount v.use_count]
  ++ v.vregs.map (fun r =>
      ReportItem.rail r.gpio r.hold_time r.active_high r.def_val)

/-- Module-port part of `dumpstate_func` (svc_power.c:320-362): only a
MODULE_PORT2 interface gets a separate wake line with its wake_gpio; the
other module port type gets a combined wake/detect header; both then
report detect_in's gpio, polarity, db_state, last_state, the hotplug
state and the interface order. -/
def dumpstate_module_items (iface : Interface) : List ReportItem :=
  (if iface.if_type = AraIfaceType.modulePort2 then
      [ReportItem.wakeGpio iface.wake_gpio, ReportItem.detectHeader]
    else
      [ReportItem.wakeDetectHeader])
  ++ [ReportItem.detectGpio iface.detect_in.gpio,
      ReportItem.polarity iface.detect_in.polarity,
      ReportItem.dbState iface.detect_in.db_state,
      ReportItem.lastState iface.detect_in.last_state,
      ReportItem.hotplug (interface_get_hotplug_state_atomic iface),
      ReportItem.order iface.if_order]

/-- Translation of `dumpstate_func` (svc_power.c:298-365): prints the
interface header, the port mapping (or its absence), both vreg groups,
and, for module ports, the wake/detect block; always returns 0 and
performs no state writes. -/
def dumpstate_func (registry : List Interface) (iface : Interface) :
    Int × List ReportItem :=
  (0,
    [ReportItem.header iface.name]
    ++ (match iface.switch_portid with
        | none => [ReportItem.portidNone]
        | some p =>
            [ReportItem.portid p,
             ReportItem.ifaceId (interface_get_id_by_portid registry p)])
    ++ dumpstate_vreg iface.vsys_vreg
    ++ dumpstate_vreg iface.refclk_vreg
    ++ (if interface_is_module_port iface then dumpstate_module_items iface
        else []))

/-- Translation of `cmd_dumpstate` (svc_power.c:367-373) on its non-exit
path: with exactly three arguments it dispatches `dumpstate_func` through
`do_to_iface`; the command-layer state is passed through untouched (the
source reads and writes no state here). -/
def cmd_dumpstate (registry : List Interface) (st : CliState)
    (argv : List String) : Option (CliState × (Int × List ReportItem)) :=
  match argv with
  | [_, _, ifname] =>
      some (st, do_to_iface registry ifname (dumpstate_func registry))
  | _ => none

/-
Concrete sample data used by the witness theorems.
-/

/-- A small sample vreg group. -/
def vregSample : Vreg :=
  { name := "vsys_a", vregs := [⟨3, 100, true, 0⟩],
    power_enabled := false, use_count := 0 }

/-- Sample interface "A", a MODULE_PORT2 module port. -/
def ifaceA : Interface :=
  { name := "A", switch_portid := some 0,
    vsys_vreg := vregSample, refclk_vreg := vregSample,
    if_type := AraIfaceType.modulePort2, wake_gpio := 4,
    detect_in := ⟨5, true, WdDebounceState.activeStable,
                  WdDebounceState.activeDebounce⟩,
    if_order := AraIfaceOrder.primary,
    hotplug_state := HotplugState.plugged }

/-- Sample interface "B". -/
def ifaceB : Interface :=
  { name := "B", switch_portid := none,
    vsys_vreg := vregSample, refclk_vreg := vregSample,
    if_type := AraIfaceType.builtin, wake_gpio := 6,
    detect_in := ⟨7, false, WdDebounceState.invalid,
                  WdDebounceState.invalid⟩,
    if_order := AraIfaceOrder.unknown,
    hotplug_state := HotplugState.unknown }

/-- Sample interface "C", a module port that is not MODULE_PORT2. -/
def ifaceNonP2 : Interface :=
  { name := "C", switch_portid := some 2,
    vsys_vreg := vregSample, refclk_vreg := vregSample,
    if_type := AraIfaceType.modulePort, wake_gpio := 7,
    detect_in := ⟨9, false, WdDebounceState.inactiveStable,
                  WdDebounceState.invalid⟩,
    if_order := AraIfaceOrder.unknown,
    hotplug_state := HotplugState.unplugged }

/-- A per-interface result function returning -5 on interface "B" and 0
elsewhere. -/
def gB : Interface → Int :=
  fun iface => if iface.name = "B" then -5 else 0

/-- A power oracle whose power-on primitive succeeds and whose power-off
primitive fails with -5. -/
def oracleSample : PowerOracle :=
  { on_result := fun _ => 0, off_result := fun _ => -5 }

/-- A wakeout oracle that always succeeds. -/
def wresSample : WakeoutOracle :=
  fun _ _ _ => 0

/-
Helper lemmas.
-/

/-- When the per-interface function succeeds everywhere, the "all" loop
visits every interface and returns 0. -/
theorem runAll_of_all_zero {α : Type} (f : Interface → Int × List α)
    (h : ∀ iface, (f iface).1 = 0) :
    ∀ l, runAll f l = (0, allTraces f l) := by
  intro l
  induction l with
  | nil => rfl
  | cons a t ih => simp [runAll, allTraces, h a, ih]

/-- Specialisation of `runAll` to a visited-interface trace: when the
result function succeeds on the whole list, every interface is visited in
order. -/
theorem runAll_trace_all_zero (g : Interface → Int) :
    ∀ l : List Interface, (∀ iface ∈ l, g iface = 0) →
      runAll (fun iface => (g iface, [iface])) l = (0, l) := by
  intro l
  induction l with
  | nil => intro _; rfl
  | cons a t ih =>
    intro h
    have ha : g a = 0 := h a (List.mem_cons_self a t)
    have ht : ∀ iface ∈ t, g iface = 0 :=
      fun iface hi => h iface (List.mem_cons_of_mem a hi)
    simp [runAll, ha, ih ht]

/-- The "all" loop stops at the first interface whose result is nonzero,
returning that result without visiting later interfaces. -/
theorem runAll_trace_first_nonzero (g : Interface → Int) :
    ∀ (pre : List Interface) (j : Interface) (post : List Interface),
      (∀ iface ∈ pre, g iface = 0) → g j ≠ 0 →
      runAll (fun iface => (g iface, [iface])) (pre ++ j :: post) =
        (g j, pre ++ [j]) := by
  intro pre
  induction pre with
  | nil =>
    intro j post _ hj
    simp [runAll, hj]
  | cons a t ih =>
    intro j post h hj
    have ha : g a = 0 := h a (List.mem_cons_self a t)
    have ht : ∀ iface ∈ t, g iface = 0 :=
      fun iface hi => h iface (List.mem_cons_of_mem a hi)
    simp [runAll, ha, ih j post ht hj]

/-- A failed lookup: when no configured interface bears the name, the
registry lookup returns none. -/
theorem interface_get_by_name_eq_none (registry : List Interface)
    (name : String) (h : ∀ iface ∈ registry, iface.name ≠ name) :
    interface_get_by_name registry name = none := by
  rw [interface_get_by_name, List.find?_eq_none]
  intro iface hi
  simpa using h iface hi

/-- C1: for an operation applied over "all" interfaces on a non-empty
registry, `do_to_iface` calls the per-interface function on each
configured interface in registration order and returns the first nonzero
result immediately, without calling the function on any remaining
interface; when every call returns 0 it returns 0 having visited the
whole registry. -/
theorem c1_do_to_iface_all_short_circuits (g : Interface → Int)
    (registry : List Interface) (hne : registry ≠ []) :
    ((∀ iface ∈ registry, g iface = 0) →
      do_to_iface registry "all" (fun iface => (g iface, [iface])) =
        (0, registry)) ∧
    (∀ (pre : List Interface) (j : Interface) (post : List Interface),
      registry = pre ++ j :: post → (∀ iface ∈ pre, g iface = 0) →
      g j ≠ 0 →
      do_to_iface registry "all" (fun iface => (g iface, [iface])) =
        (g j, pre ++ [j])) := by
  constructor
  · intro h
    simp [do_to_iface]
    exact runAll_trace_all_zero g registry h
  · intro pre j post hsplit hpre hj
    simp [do_to_iface, hsplit]
    exact runAll_trace_first_nonzero g pre j post hpre hj

/-- Witness for C1 at a concrete registry: "B" fails with -5, so the
iteration stops right after it. -/
theorem c1_witness :
    ([ifaceA, ifaceB] : List Interface) ≠ [] ∧
    do_to_iface [ifaceA, ifaceB] "all" (fun iface => (gB iface, [iface])) =
      (-5, [ifaceA, ifaceB]) :=
  ⟨by decide, by
    have h := (c1_do_to_iface_all_short_circuits gB [ifaceA, ifaceB]
        (by decide)).2 [ifaceA] ifaceB [] rfl (by decide) (by decide)
    exact h.trans (by decide)⟩

/-- C4: an interface name other than "all"/"ALL" that matches no
configured interface name (matching is exact and case-sensitive) makes
every operation fail with -EINVAL, and the per-interface function is
never invoked (empty call trace). -/
theorem c4_unknown_name_fails_without_calls {α : Type}
    (registry : List Interface) (name : String)
    (f : Interface → Int × List α)
    (h1 : name ≠ "all") (h2 : name ≠ "ALL")
    (h3 : ∀ iface ∈ registry, iface.name ≠ name) :
    do_to_iface registry name f = (-EINVAL, []) := by
  have hfind := interface_get_by_name_eq_none registry name h3
  simp [do_to_iface, h1, h2, hfind]

/-- Witness for C4: looking up "C" in a registry holding only "A" fails
with -EINVAL and performs no call. -/
theorem c4_witness :
    ("C" ≠ "all" ∧ "C" ≠ "ALL" ∧ ∀ iface ∈ [ifaceA], iface.name ≠ "C") ∧
    do_to_iface [ifaceA] "C" (fun iface => ((0 : Int), [iface])) =
      (-EINVAL, []) :=
  ⟨⟨by decide, by decide, by decide⟩,
    c4_unknown_name_fails_without_calls [ifaceA] "C"
      (fun iface => ((0 : Int), [iface])) (by decide) (by decide)
      (by decide)⟩

/-- C9: exactly the strings "all" and "ALL" select the
iterate-over-all-interfaces behaviour of `do_to_iface`; every other
string, including mixed-case variants such as "All", is treated as an
interface name to look up, failing with -EINVAL when no configured
interface has exactly that name. -/
theorem c9_only_all_iterates {α : Type} (registry : List Interface)
    (f : Interface → Int × List α) :
    do_to_iface registry "all" f = runAll f registry ∧
    do_to_iface registry "ALL" f = runAll f registry ∧
    ∀ name, name ≠ "all" → name ≠ "ALL" →
      do_to_iface registry name f =
        (match interface_get_by_name registry name with
         | none => (-EINVAL, [])
         | some iface => f iface) := by
  refine ⟨by simp [do_to_iface], by simp [do_to_iface], ?_⟩
  intro name h1 h2
  simp [do_to_iface, h1, h2]

/-- Witness for C9: "All" is not special — in a registry with interfaces
"A" and "B" it is looked up as a name and fails with -EINVAL. -/
theorem c9_witness :
    ("All" ≠ "all" ∧ "All" ≠ "ALL") ∧
    do_to_iface [ifaceA, ifaceB] "All"
        (fun iface => ((0 : Int), [iface])) = (-EINVAL, []) :=
  ⟨⟨by decide, by decide⟩, by
    have h := (c9_only_all_iterates [ifaceA, ifaceB]
        (fun iface => ((0 : Int), [iface]))).2.2 "All" (by decide)
        (by decide)
    exact h.trans (by decide)⟩

/-- Invariant transport: `power_enabled` tracks positivity of `use_count`
across any sequence of vreg operations. -/
theorem vreg_run_power_invariant :
    ∀ (ops : List VregOp) (s : VregState),
      (s.power_enabled = true ↔ 0 < s.use_count) →
      ((vreg_run s ops).power_enabled = true ↔
        0 < (vreg_run s ops).use_count) := by
  intro ops
  induction ops with
  | nil => intro s h; exact h
  | cons op rest ih =>
    intro s h
    refine ih (vreg_step s op) ?_
    cases op with
    | enable =>
      by_cases hc : s.use_count = 0
      · simp [vreg_step, vreg_enable, hc]
      · have h1 : 0 < s.use_count := Nat.pos_of_ne_zero hc
        simp [vreg_step, vreg_enable, hc]
        exact h.mpr h1
    | disable =>
      by_cases hc : s.use_count = 0
      · simpa [vreg_step, vreg_disable, hc] using h
      · by_cases hc1 : s.use_count = 1
        · simp [vreg_step, vreg_disable, hc, hc1]
        · simp [vreg_step, vreg_disable, hc, hc1]
          rw [h]
          omega

/-- Counting transport: a balanced sequence of vreg operations moves the
use count by the difference of enables and disables (stated additively to
stay in the naturals). -/
theorem vreg_run_count (ops : List VregOp) :
    ∀ (c : Nat) (s : VregState), s.use_count = c →
      balanced c ops = true →
      (vreg_run s ops).use_count + countD ops = c + countE ops := by
  induction ops with
  | nil => intro c s hs _; simp [vreg_run, countD, countE, hs]
  | cons op rest ih =>
    intro c s hs hbal
    cases op with
    | enable =>
      have hstep : (vreg_step s VregOp.enable).use_count = c + 1 := by
        simp [vreg_step, vreg_enable, hs]
      have hb : balanced (c + 1) rest = true := by
        simpa [balanced] using hbal
      have := ih (c + 1) (vreg_step s VregOp.enable) hstep hb
      simp only [vreg_run, countD, countE]
      omega
    | disable =>
      have hpos : 0 < c := by
        have := hbal
        simp [balanced] at this
        exact this.1
      have hstep : (vreg_step s VregOp.disable).use_count = c - 1 := by
        simp only [vreg_step, vreg_disable, hs]
        have hne : ¬ c = 0 := by omega
        simp [hne]
      have hb : balanced (c - 1) rest = true := by
        have := hbal
        simp [balanced] at this
        exact this.2
      have := ih (c - 1) (vreg_step s VregOp.disable) hstep hb
      simp only [vreg_run, countD, countE]
      omega

/-- C2 counterexample: the interleaving disable-then-enable has one
enable and one disable (so N ≥ M and N - M = 0), yet leaves use_count at
1, because the leading disable at use_count 0 is a guarded no-op. -/
theorem c2_counterexample :
    countD [VregOp.disable, VregOp.enable] ≤
      countE [VregOp.disable, VregOp.enable] ∧
    (vreg_run vregInitial [VregOp.disable, VregOp.enable]).use_count ≠
      countE [VregOp.disable, VregOp.enable] -
        countD [VregOp.disable, VregOp.enable] := by
  constructor
  · decide
  · decide

/-- C2 (amended): for any interleaving of enables and disables in which
no disable is issued with zero outstanding enables (every prefix has at
least as many enables as disables), the final use_count is N - M; for
every interleaving whatsoever, power_enabled equals (use_count > 0), and
a disable at use_count 0 leaves the state unchanged (the count never
underflows). -/
theorem c2_amended_refcount (ops : List VregOp) :
    (balanced 0 ops = true →
      (vreg_run vregInitial ops).use_count = countE ops - countD ops) ∧
    ((vreg_run vregInitial ops).power_enabled = true ↔
      0 < (vreg_run vregInitial ops).use_count) ∧
    (∀ s : VregState, s.use_count = 0 → vreg_step s VregOp.disable = s) := by
  refine ⟨?_, ?_, ?_⟩
  · intro hbal
    have h := vreg_run_count ops 0 vregInitial rfl hbal
    omega
  · exact vreg_run_power_invariant ops vregInitial (by simp [vregInitial])
  · intro s hs
    simp [vreg_step, vreg_disable, hs]

/-- Witness for C2 (amended) at enable, enable, disable: the sequence is
balanced and ends with use_count 1 = 2 - 1. -/
theorem c2_witness :
    balanced 0 [VregOp.enable, VregOp.enable, VregOp.disable] = true ∧
    (vreg_run vregInitial
        [VregOp.enable, VregOp.enable, VregOp.disable]).use_count =
      countE [VregOp.enable, VregOp.enable, VregOp.disable] -
        countD [VregOp.enable, VregOp.enable, VregOp.disable] :=
  ⟨by decide,
    (c2_amended_refcount [VregOp.enable, VregOp.enable, VregOp.disable]).1
      (by decide)⟩

/-- C3: the derived hotplug state is UNKNOWN when the debounce state is
INVALID, INACTIVE_DEBOUNCE or ACTIVE_DEBOUNCE, UNPLUGGED when it is
INACTIVE_STABLE, and PLUGGED when it is ACTIVE_STABLE — for every
debounce state, hence for every reachable one. -/
theorem c3_hotplug_of_debounce (s : WdDebounceState) :
    ((s = WdDebounceState.invalid ∨ s = WdDebounceState.inactiveDebounce ∨
        s = WdDebounceState.activeDebounce) →
      hotplug_state_of_debounce s = HotplugState.unknown) ∧
    (s = WdDebounceState.inactiveStable →
      hotplug_state_of_debounce s = HotplugState.unplugged) ∧
    (s = WdDebounceState.activeStable →
      hotplug_state_of_debounce s = HotplugState.plugged) := by
  cases s <;> simp [hotplug_state_of_debounce]

/-- Witness for C3 at the INVALID state. -/
theorem c3_witness :
    hotplug_state_of_debounce WdDebounceState.invalid =
      HotplugState.unknown :=
  (c3_hotplug_of_debounce WdDebounceState.invalid).1 (Or.inl rfl)

/-- C5: for an interface handed to `set_power_func`, a nonzero enable
argument makes exactly one call, to the power-on primitive, and a zero
enable argument makes exactly one call, to the power-off primitive; in
both cases the returned value is that primitive's result. -/
theorem c5_set_power_one_call (o : PowerOracle) (enable : Int)
    (iface : Interface) :
    (enable ≠ 0 →
      set_power_func o enable iface =
        (o.on_result iface, [PrimCall.powerOn iface])) ∧
    (enable = 0 →
      set_power_func o enable iface =
        (o.off_result iface, [PrimCall.powerOff iface])) := by
  constructor
  · intro h; simp [set_power_func, h]
  · intro h; simp [set_power_func, h]

/-- Witness for C5: enable argument 1 on interface "A" produces exactly
the one power-on call and the oracle's power-on result. -/
theorem c5_witness :
    ((1 : Int) ≠ 0) ∧
    set_power_func oracleSample 1 ifaceA =
      (0, [PrimCall.powerOn ifaceA]) :=
  ⟨by decide, (c5_set_power_one_call oracleSample 1 ifaceA).1 (by decide)⟩

/-- C7: the wakeout verb without a length argument pulses with the
current stored default length; with a length argument it pulses with the
parsed length regardless of the stored default; the stored default starts
at the sentinel -1 (board-hardcoded default) and the wakeout_length verb
leaves it unchanged when given no argument and sets it to the parsed
argument otherwise. -/
theorem c7_wakeout_length_default (wres : WakeoutOracle)
    (registry : List Interface) (st : CliState)
    (p c ifname lenArg : String) (iface : Interface)
    (h1 : ifname ≠ "all") (h2 : ifname ≠ "ALL")
    (hf : interface_get_by_name registry ifname = some iface) :
    initialCliState.wakeout_length_default = -1 ∧
    cmd_wakeout wres registry st [p, c, ifname] =
      some (st, (wres iface false st.wakeout_length_default,
        [WakeoutCall.pulse iface false st.wakeout_length_default])) ∧
    cmd_wakeout wres registry st [p, c, ifname, lenArg] =
      some (st, (wres iface false (strtol10 lenArg),
        [WakeoutCall.pulse iface false (strtol10 lenArg)])) ∧
    cmd_wakeout_length st [p, c] = some (st, 0) ∧
    cmd_wakeout_length st [p, c, lenArg] =
      some ({ wakeout_length_default := strtol10 lenArg }, 0) := by
  refine ⟨rfl, ?_, ?_, rfl, rfl⟩
  · simp [cmd_wakeout, do_to_iface, h1, h2, hf, wakeout_func]
  · simp [cmd_wakeout, do_to_iface, h1, h2, hf, wakeout_func]

/-- Witness for C7: wakeout on "A" with no length argument, in the
initial command-layer state, pulses with the sentinel -1. -/
theorem c7_witness :
    ("A" ≠ "all" ∧ "A" ≠ "ALL" ∧
      interface_get_by_name [ifaceA] "A" = some ifaceA) ∧
    cmd_wakeout wresSample [ifaceA] initialCliState ["power", "w", "A"] =
      some (initialCliState, (0, [WakeoutCall.pulse ifaceA false (-1)])) :=
  ⟨⟨by decide, by decide, by decide⟩, by
    have h := (c7_wakeout_length_default wresSample [ifaceA]
        initialCliState "power" "w" "A" "10" ifaceA (by decide) (by decide)
        (by decide)).2.1
    exact h.trans (by decide)⟩

/-- C8: the dumpstate query's per-interface function always returns 0,
so dumpstate over "all" on a non-empty registry never short-circuits: it
visits every interface, returns 0, and the command-layer state (the
stored default wakeout length) is passed through unchanged; the embedded
`dumpstate_func` is a pure report of the state it is given. -/
theorem c8_dumpstate_read_only (registry : List Interface) :
    (∀ iface, (dumpstate_func registry iface).1 = 0) ∧
    (∀ (st : CliState) (p c : String), registry ≠ [] →
      cmd_dumpstate registry st [p, c, "all"] =
        some (st, (0, allTraces (dumpstate_func registry) registry))) := by
  constructor
  · intro iface; rfl
  · intro st p c hne
    simp [cmd_dumpstate, do_to_iface,
      runAll_of_all_zero (dumpstate_func registry) (fun _ => rfl) registry]

/-- Witness for C8 on a concrete two-interface registry: dumpstate over
"all" returns 0, leaves the command-layer state unchanged, and reports
both interfaces. -/
theorem c8_witness :
    ([ifaceA, ifaceB] : List Interface) ≠ [] ∧
    cmd_dumpstate [ifaceA, ifaceB] initialCliState ["power", "d", "all"] =
      some (initialCliState,
        (0, allTraces (dumpstate_func [ifaceA, ifaceB]) [ifaceA, ifaceB])) :=
  ⟨by decide,
    (c8_dumpstate_read_only [ifaceA, ifaceB]).2 initialCliState "power" "d"
      (by decide)⟩

/-- C10: with four arguments, the set_power verb parses argv[3] with
strtol base 10, treats every nonzero parse as power-on and a zero parse
as power-off, and never rejects the argument: for any selected interface
the result is always the chosen primitive's result.  The strtol model
parses "2" to 2 and "-1" to -1 (nonzero, hence power-on) and the
non-numeric "abc" to 0 (hence power-off). -/
theorem c10_set_power_parse (o : PowerOracle) (registry : List Interface)
    (p c ifname onoff : String) (iface : Interface)
    (h1 : ifname ≠ "all") (h2 : ifname ≠ "ALL")
    (hf : interface_get_by_name registry ifname = some iface) :
    cmd_set_power o registry [p, c, ifname, onoff] =
      some (if strtol10 onoff ≠ 0 then
              (o.on_result iface, [PrimCall.powerOn iface])
            else
              (o.off_result iface, [PrimCall.powerOff iface])) ∧
    strtol10 "2" = 2 ∧ strtol10 "-1" = -1 ∧ strtol10 "abc" = 0 := by
  refine ⟨?_, by decide, by decide, by decide⟩
  simp [cmd_set_power, do_to_iface, h1, h2, hf, set_power_func]

/-- Witness for C10: argument "2" (nonzero) powers interface "A" on. -/
theorem c10_witness :
    ("A" ≠ "all" ∧ "A" ≠ "ALL" ∧
      interface_get_by_name [ifaceA] "A" = some ifaceA) ∧
    cmd_set_power oracleSample [ifaceA] ["power", "p", "A", "2"] =
      some (0, [PrimCall.powerOn ifaceA]) :=
  ⟨⟨by decide, by decide, by decide⟩, by
    have h := (c10_set_power_parse oracleSample [ifaceA] "power" "p" "A"
        "2" ifaceA (by decide) (by decide) (by decide)).1
    exact h.trans (by decide)⟩

/-- A vreg block of the report never contains a wake-gpio line. -/
theorem wakeGpio_notin_dumpstate_vreg (v : Vreg) (g : Nat) :
    ReportItem.wakeGpio g ∉ dumpstate_vreg v := by
  unfold dumpstate_vreg
  by_cases h : v.vregs = [] <;> simp [h]

/-- C6 counterexample: a module-port interface whose type is not
MODULE_PORT2 (interface "C") is reported by dumpstate without any
wake-gpio line, although it has wake_gpio 7. -/
theorem c6_counterexample :
    interface_is_module_port ifaceNonP2 = true ∧
    ifaceNonP2.wake_gpio = 7 ∧
    ReportItem.wakeGpio ifaceNonP2.wake_gpio ∉
      (dumpstate_func [ifaceNonP2] ifaceNonP2).2 := by
  refine ⟨rfl, rfl, ?_⟩
  decide

/-- C6 (amended): for every module-port interface, dumpstate reports the
detect gpio and polarity, the current and previous debounce state, the
current hotplug state and the interface order; the wake_gpio is reported
if and only if the interface's type is MODULE_PORT2 — other module ports
get a combined wake/detect header and no separate wake-gpio line. -/
theorem c6_amended_dumpstate_module_fields (registry : List Interface)
    (iface : Interface) (h : interface_is_module_port iface = true) :
    (iface.if_type = AraIfaceType.modulePort2 →
      ReportItem.wakeGpio iface.wake_gpio ∈ (dumpstate_func registry iface).2) ∧
    (iface.if_type ≠ AraIfaceType.modulePort2 →
      (∀ g, ReportItem.wakeGpio g ∉ (dumpstate_func registry iface).2) ∧
      ReportItem.wakeDetectHeader ∈ (dumpstate_func registry iface).2) ∧
    ReportItem.detectGpio iface.detect_in.gpio ∈
      (dumpstate_func registry iface).2 ∧
    ReportItem.polarity iface.detect_in.polarity ∈
      (dumpstate_func registry iface).2 ∧
    ReportItem.dbState iface.detect_in.db_state ∈
      (dumpstate_func registry iface).2 ∧
    ReportItem.lastState iface.detect_in.last_state ∈
      (dumpstate_func registry iface).2 ∧
    ReportItem.hotplug (interface_get_hotplug_state_atomic iface) ∈
      (dumpstate_func registry iface).2 ∧
    ReportItem.order iface.if_order ∈ (dumpstate_func registry iface).2 := by
  refine ⟨?_, ?_, ?_, ?_, ?_, ?_, ?_, ?_⟩
  · intro h2
    simp [dumpstate_func, dumpstate_module_items, h, h2]
  · intro h2
    constructor
    · intro g
      have hv1 := wakeGpio_notin_dumpstate_vreg iface.vsys_vreg g
      have hv2 := wakeGpio_notin_dumpstate_vreg iface.refclk_vreg g
      cases hsp : iface.switch_portid <;>
        simp [dumpstate_func, dumpstate_module_items, h, h2, hsp, hv1, hv2]
    · simp [dumpstate_func, dumpstate_module_items, h, h2]
  · by_cases h2 : iface.if_type = AraIfaceType.modulePort2 <;>
      simp [dumpstate_func, dumpstate_module_items, h, h2]
  · by_cases h2 : iface.if_type = AraIfaceType.modulePort2 <;>
      simp [dumpstate_func, dumpstate_module_items, h, h2]
  · by_cases h2 : iface.if_type = AraIfaceType.modulePort2 <;>
      simp [dumpstate_func, dumpstate_module_items, h, h2]
  · by_cases h2 : iface.if_type = AraIfaceType.modulePort2 <;>
      simp [dumpstate_func, dumpstate_module_items, h, h2]
  · by_cases h2 : iface.if_type = AraIfaceType.modulePort2 <;>
      simp [dumpstate_func, dumpstate_module_items, h, h2]
  · by_cases h2 : iface.if_type = AraIfaceType.modulePort2 <;>
      simp [dumpstate_func, dumpstate_module_items, h, h2]

/-- Witness for C6 (amended): interface "A" is a MODULE_PORT2 module
port and its dumpstate report carries its wake_gpio. -/
theorem c6_witness :
    interface_is_module_port ifaceA = true ∧
    ReportItem.wakeGpio ifaceA.wake_gpio ∈ (dumpstate_func [ifaceA] ifaceA).2 :=
  ⟨by decide,
    (c6_amended_dumpstate_module_fields [ifaceA] ifaceA (by decide)).1
      (by decide)⟩
